import Mathlib

/-!
# ExpenseCompleter

A shallow embedding of `Expense.Prototype.Completer.js` (the `ExpenseCompleter`
autocomplete behaviour written against Prototype.js) and the properties of its
request scheduling, response normalisation, keyboard selection and commit code.

The object's fields and the part of the browser it touches (the document, the
timer table, the requests in flight, the alert log) form one record,
`Completer`. Every method of the prototype is a function on that record.
A JavaScript exception is an `Outcome.threw` that keeps the state reached when
it was raised.
-/

namespace ExpenseCompleter

/-! ## Data model -/

/-- Key code of Prototype's `Event.KEY_TAB`. -/
def KEY_TAB : Nat := 9

/-- Key code of Prototype's `Event.KEY_RETURN`. -/
def KEY_RETURN : Nat := 13

/-- Key code of Prototype's `Event.KEY_UP`. -/
def KEY_UP : Nat := 38

/-- Key code of Prototype's `Event.KEY_DOWN`. -/
def KEY_DOWN : Nat := 40

/-- One rendered candidate element: an element of the container that carries
`resultItemClass`. `dataName` and `dataValue` are what `readAttribute` gives for
`data-name` and `data-value` (`none` for `null`); `selected` says whether the
element carries `resultItemSelectedClass`. -/
structure ResultItem where
  dataName : Option String
  dataValue : Option String
  selected : Bool
  deriving DecidableEq, Repr

/-- The text input the completer is attached to (`this.inputElement`): its
`value`, and `sanitize`, what the element's type makes of a string that a
script assigns to `value` (a text field drops line breaks, a hidden field
keeps the string). -/
structure InputElement where
  value : String
  sanitize : String → String

/-- The companion field `settings.valueElement`: its `value`, the number of
`change` events simulated on it so far, and `sanitize`, what the element's
type makes of a string that a script assigns to `value`. -/
structure ValueElement where
  value : String
  changes : Nat
  sanitize : String → String

/-- The value sanitisation of a text field: line feeds and carriage returns
are removed. -/
def stripNewlines (t : String) : String :=
  String.mk (t.toList.filter (fun c => c.toNat ≠ 10 && c.toNat ≠ 13))

/-- A hidden field holding `value`: an assigned string is kept as it is. -/
def hiddenField (value : String) : ValueElement :=
  { value := value, changes := 0, sanitize := fun t => t }

/-- A text field holding `value`, as a value element. -/
def textField (value : String) : ValueElement :=
  { value := value, changes := 0, sanitize := stripNewlines }

/-- A text input holding `text`. -/
def textInput (text : String) : InputElement :=
  { value := text, sanitize := stripNewlines }

/-- The behavioural part of `this.settings`. The transition timings, the
request encoding and the container class and id have no effect on the state
modelled here and are left out. `onSetValue` is the injected callback, read as
a predicate on the item and the field text. -/
structure Settings where
  allowEmptyRequests : Bool
  allowFreeInput : Bool
  onSetValue : ResultItem → String → Bool
  reportErrors : Bool
  requestUrl : Option String
  requestSearchParamName : String
  resultItemClass : String
  resultItemSelectedClass : String
  selectedItem : Int
  shouldCompleteOnFocus : Bool
  valueElement : ValueElement

/-- The defaults of the constructor's `Object.extend` call, for the companion
field `valueElement` that `$(id + 'Value')` finds. -/
def defaultSettings (valueElement : ValueElement) : Settings :=
  { allowEmptyRequests := true
    allowFreeInput := true
    onSetValue := fun _ _ => false
    reportErrors := false
    requestUrl := none
    requestSearchParamName := "q"
    resultItemClass := "autocomplete-result-item"
    resultItemSelectedClass := "selected"
    selectedItem := -1
    shouldCompleteOnFocus := true
    valueElement := valueElement }

/-- One entry of a structured payload's `list`, with string fields; `none`
is an absent (`undefined`) field. -/
structure Record where
  name : Option String
  value : Option String
  caption : Option String
  title : Option String
  deriving DecidableEq, Repr

/-- What the completer reads of `response.responseJSON`: the `success` flag
(`some true` exactly when `success === true`), the `error` text and the
`list`. -/
structure JsonPayload where
  success : Option Bool
  error : Option String
  list : Option (List Record)
  deriving DecidableEq, Repr

/-- What the completer reads of an `Ajax.Response`. `contentType` is
`getHeader('Content-type')`, `none` when the header is missing. -/
structure Response where
  status : Nat
  responseText : String
  responseJSON : Option JsonPayload
  contentType : Option String
  deriving DecidableEq, Repr

/-- The measurements the navigation code asks of the layout engine while it
handles one key: `getInnerScrollOffsetForItem` and `getHeight` of the item at
an index, and `getHeight` of the container. -/
structure Geometry where
  innerScrollOffset : Nat → Int
  itemHeight : Nat → Int
  containerHeight : Int

/-- The completer object together with the browser state it acts on.

* `currentRequest` ... `settings` are the object's own properties;
  `selectedItem` is `this.selectedItem`, which the constructor never assigns
  (the selection index lives in `settings.selectedItem`).
* `containerInDocument` says whether `$(containerID)` finds the container;
  `resultItems` are the candidate elements inside it and `scrollTop` its
  scroll position.
* `timers` are the pending debounce timers, `requests` the requests in flight
  (created, neither completed nor aborted), `dispatched` the URLs requested so
  far, `fades` the number of fade-outs scheduled by `disable` and not finished.
  Timers and requests are named by handles, numbered from `nextTimer` and
  `nextRequest` in the order of their creation.
* `activeRequestCount` is `Ajax.activeRequestCount`; `alerts` and
  `endWithoutValue` log the calls of `alert` and `onEndWithoutValue`. -/
structure Completer where
  currentRequest : Option Nat
  inputElement : InputElement
  itemCount : Nat
  itemList : String
  requestTimeout : Option Nat
  selectedItem : Option Int
  settings : Settings
  containerInDocument : Bool
  resultItems : List ResultItem
  scrollTop : Int
  timers : List Nat
  nextTimer : Nat
  requests : List Nat
  nextRequest : Nat
  dispatched : List String
  fades : Nat
  activeRequestCount : Int
  alerts : List String
  endWithoutValue : List String

/-- The state the constructor (the method `initialize`) leaves for the given
merged settings and input element: no request, no timer, no items, the
container created but not inserted in the document. -/
def construct (settings : Settings) (inputElement : InputElement) : Completer :=
  { currentRequest := none
    inputElement := inputElement
    itemCount := 0
    itemList := ""
    requestTimeout := none
    selectedItem := none
    settings := settings
    containerInDocument := false
    resultItems := []
    scrollTop := 0
    timers := []
    nextTimer := 1
    requests := []
    nextRequest := 0
    dispatched := []
    fades := 0
    activeRequestCount := 0
    alerts := []
    endWithoutValue := [] }

/-- The result of running code that may throw: the state at the end, or the
state at the point where the exception was raised and its message. -/
inductive Outcome where
  | ok (s : Completer)
  | threw (s : Completer) (error : String)

/-- The state an outcome carries. -/
def Outcome.state : Outcome → Completer
  | .ok s => s
  | .threw s _ => s

/-- Whether the code ran to its end. -/
def Outcome.completed : Outcome → Bool
  | .ok _ => true
  | .threw _ _ => false

/-! ## Request URL -/

/-- `String.prototype.indexOf` for a single character: the position of its
first occurrence from `i` on, `-1` when there is none. -/
def indexOfFrom (c : Char) : List Char → Nat → Int
  | [], _ => -1
  | d :: ds, i => if d = c then (i : Int) else indexOfFrom c ds (i + 1)

/-- `getQueryString`: `none` is the `TypeError` of `null.indexOf` when no
`requestUrl` was configured. -/
def getQueryString (s : Completer) : Option String :=
  match s.settings.requestUrl with
  | none => none
  | some url =>
    some (url ++ (if indexOfFrom '?' url.toList 0 ≠ -1 then "&" else "?")
      ++ s.settings.requestSearchParamName ++ "=" ++ s.inputElement.value)

/-! ## Request scheduler -/

/-- `abortCurrentRequest`: when `currentRequest` is not `null`, the patched
`Ajax.Request.prototype.abort` aborts the transport (the request is no longer
in flight; aborting a finished request changes nothing there) and decrements
`Ajax.activeRequestCount`. -/
def abortCurrentRequest (s : Completer) : Completer :=
  match s.currentRequest with
  | none => s
  | some r =>
    { s with
      requests := s.requests.filter (fun q => q ≠ r)
      activeRequestCount := s.activeRequestCount - 1 }

/-- `clearRequestTimeout`: `clearTimeout` on `requestTimeout` when that is
truthy (a timer id other than `0`). Clearing a timer that already fired
changes nothing. -/
def clearRequestTimeout (s : Completer) : Completer :=
  match s.requestTimeout with
  | none => s
  | some t =>
    if t ≠ 0 then { s with timers := s.timers.filter (fun u => u ≠ t) } else s

/-- `sendRequest`: abort the current request, clear the pending timer, then
start a debounce timer with `setTimeout` and keep its id in
`requestTimeout`. -/
def sendRequest (s : Completer) : Completer :=
  let s1 := abortCurrentRequest s
  let s2 := clearRequestTimeout s1
  { s2 with
    requestTimeout := some s2.nextTimer
    timers := s2.nextTimer :: s2.timers
    nextTimer := s2.nextTimer + 1 }

/-- The callback `sendRequest` hands to `setTimeout`: build the URL and create
the `Ajax.Request`, which becomes `currentRequest`. Prototype counts the new
request in `Ajax.activeRequestCount`. -/
def onRequestTimeout (s : Completer) : Outcome :=
  match getQueryString s with
  | none => .threw s "TypeError: requestUrl is null"
  | some url =>
    .ok { s with
      currentRequest := some s.nextRequest
      requests := s.nextRequest :: s.requests
      nextRequest := s.nextRequest + 1
      dispatched := s.dispatched ++ [url]
      activeRequestCount := s.activeRequestCount + 1 }

/-! ## Visibility controller -/

/-- `shouldAutoComplete`. -/
def shouldAutoComplete (s : Completer) : Bool :=
  decide (s.itemCount > 0)

/-- `getActiveContainer() != undefined`: the container is found in the
document. -/
def getActiveContainer (s : Completer) : Bool :=
  s.containerInDocument

/-- `getAllResultItems`: the selector only finds elements of a container that
is in the document. -/
def getAllResultItems (s : Completer) : List ResultItem :=
  if s.containerInDocument then s.resultItems else []

/-- `disable`: abort the request, clear the timer and, when the container is
in the document, schedule its fade-out and removal. -/
def disable (s : Completer) : Completer :=
  let s1 := abortCurrentRequest s
  let s2 := clearRequestTimeout s1
  if s2.containerInDocument then { s2 with fades := s2.fades + 1 } else s2

/-- The loop of `enable` over the rendered items, from index `index` on: the
item whose index is the selection index gets the selected class. -/
def enableEach (selectedItem : Int) : List ResultItem → Nat → List ResultItem
  | [], _ => []
  | item :: rest, index =>
    (if (index : Int) = selectedItem then { item with selected := true } else item)
      :: enableEach selectedItem rest (index + 1)

/-- `enable`: with items to show, put `itemList` in the container (inserting
the container in the document when it is not there) and mark the selected
item; otherwise `disable`. `dom` is the browser's reading of a markup string:
the elements with `resultItemClass` that `update` creates from it. -/
def enable (dom : String → List ResultItem) (s : Completer) : Completer :=
  if shouldAutoComplete s then
    let s1 := { s with containerInDocument := true, resultItems := dom s.itemList }
    { s1 with resultItems := enableEach s1.settings.selectedItem (getAllResultItems s1) 0 }
  else
    disable s

/-! ## Response normaliser -/

/-- All matches of the regular expression `/\<li/g` in a string, left to
right. After a match the scan goes on inside it, which finds the same matches
as going on behind it: no match starts at the `l` or the `i`. -/
def scanLi : List Char → List String
  | [] => []
  | c :: rest =>
    match c, rest with
    | '<', 'l' :: 'i' :: _ => "<li" :: scanLi rest
    | _, _ => scanLi rest

/-- `String.prototype.match` with `/\<li/g`: the array of matches, or `null`
(`none`) when there is no match. -/
def matchLi (html : String) : Option (List String) :=
  match scanLi html.toList with
  | [] => none
  | m :: ms => some (m :: ms)

/-- `handleHtmlResponse`: store the markup, then count the matches; reading
`length` of `null` throws. -/
def handleHtmlResponse (s : Completer) (htmlResponse : String) : Outcome :=
  let s1 := { s with itemList := htmlResponse }
  match matchLi htmlResponse with
  | none => .threw s1 "TypeError: null has no properties"
  | some ms => .ok { s1 with itemCount := ms.length }

/-- The body of the loop of `handleJsonResponse` for one item: default the
four fields in place, append the item's markup to `itemList` and count it.
Returns the state and the item as it is left. -/
def jsonItem (s : Completer) (item : Record) (index : Nat) : Completer × Record :=
  let selectedClass :=
    if some (index : Int) = s.selectedItem then " " ++ s.settings.resultItemSelectedClass else ""
  let name := match item.name with | some n => n | none => ""
  let value := match item.value with | some v => v | none => ""
  let caption := match item.caption with | some c => c | none => name
  let title := match item.title with | some t => t | none => name
  let l1 := s.itemList ++ ("<li data-name=\"" ++ name ++ "\" data-value=\"" ++ value
    ++ "\" title=\"" ++ title ++ "\" class=\"" ++ s.settings.resultItemClass
    ++ selectedClass ++ "\">")
  let l2 := l1 ++ caption
  let l3 := l2 ++ "</li>"
  ({ s with itemList := l3, itemCount := s.itemCount + 1 },
   { name := some name, value := some value, caption := some caption, title := some title })

/-- The loop `jsonResponse.list.each(...)`, from index `index` on. -/
def jsonEach (s : Completer) : List Record → Nat → Completer × List Record
  | [], _ => (s, [])
  | item :: rest, index =>
    let r := jsonItem s item index
    let rs := jsonEach r.1 rest (index + 1)
    (rs.1, r.2 :: rs.2)

/-- `handleJsonResponse`: the outcome and the list entries as the loop leaves
them. A `null` payload, or one without `list`, throws. -/
def handleJsonResponse (s : Completer) (jsonResponse : Option JsonPayload) :
    Outcome × List Record :=
  match jsonResponse with
  | none => (.threw s "TypeError: jsonResponse is null", [])
  | some payload =>
    match payload.list with
    | none => (.threw s "TypeError: jsonResponse.list is undefined", [])
    | some list =>
      let r := jsonEach s list 0
      (.ok r.1, r.2)

/-- Whether `pat` starts the string `cs`. -/
def startsWith : List Char → List Char → Bool
  | [], _ => true
  | _ :: _, [] => false
  | p :: ps, c :: cs => p == c && startsWith ps cs

/-- Whether `pat` occurs in `cs`. -/
def occursIn (pat : List Char) : List Char → Bool
  | [] => startsWith pat []
  | c :: cs => startsWith pat (c :: cs) || occursIn pat cs

/-- The test `.match(/json/i)` on a header value. -/
def matchesJson (header : String) : Bool :=
  occursIn "json".toList (header.toList.map Char.toLower)

/-- `handleResponse`: reset the item count and list, hand the payload to the
handler the content type selects, then `enable`. A missing `Content-type`
header throws at `null.match`. -/
def handleResponse (dom : String → List ResultItem) (s : Completer) (response : Response) :
    Outcome :=
  let s1 := { s with itemCount := 0, itemList := "" }
  match response.contentType with
  | none => .threw s1 "TypeError: getHeader(...) is null"
  | some header =>
    let handled :=
      if matchesJson header then (handleJsonResponse s1 response.responseJSON).1
      else handleHtmlResponse s1 response.responseText
    match handled with
    | .threw s2 e => .threw s2 e
    | .ok s2 => .ok (enable dom s2)

/-- Whether `response.responseJSON.success === true`. -/
def successIsTrue (payload : JsonPayload) : Bool :=
  payload.success == some true

/-- The end of `onSuccess`: clamp `Ajax.activeRequestCount` at zero. -/
def clampActiveRequestCount (s : Completer) : Completer :=
  if s.activeRequestCount < 0 then { s with activeRequestCount := 0 } else s

/-- JavaScript's rendering of a possibly `undefined` string in a
concatenation. -/
def jsString : Option String → String
  | some t => t
  | none => "undefined"

/-- The completion handler `onSuccess` of the request. An exception of
`handleResponse` leaves the handler before the clamp. -/
def onSuccess (dom : String → List ResultItem) (s : Completer) (response : Response) :
    Outcome :=
  if response.status > 299 && s.settings.reportErrors then
    .ok (clampActiveRequestCount
      { s with alerts := s.alerts ++ ["Ett fel har inträffat: " ++ response.responseText] })
  else
    match response.responseJSON with
    | none =>
      match handleResponse dom s response with
      | .threw s1 e => .threw s1 e
      | .ok s1 => .ok (clampActiveRequestCount s1)
    | some payload =>
      if successIsTrue payload then
        match handleResponse dom s response with
        | .threw s1 e => .threw s1 e
        | .ok s1 => .ok (clampActiveRequestCount s1)
      else if s.settings.reportErrors then
        .ok (clampActiveRequestCount
          { s with alerts := s.alerts ++ ["Ett ajaxfel har inträffat: " ++ jsString payload.error] })
      else
        .ok (clampActiveRequestCount s)

/-! ## Commit protocol -/

/-- The argument of `setValue`: a string (free text) or a rendered item. -/
inductive SetValueArg where
  | text (t : String)
  | item (resultItem : ResultItem)

/-- The string an input element is handed when `v` is assigned to its `value`
(`null` gives the empty string). -/
def assigned : Option String → String
  | some t => t
  | none => ""

/-- `setValue`. Free text is assigned to the value element's `value` only
when `allowFreeInput` is set; an item is first offered to `onSetValue` and,
unless that returns true, its name is assigned to the input field's `value`
and its value to the value element's. An assignment to `value` stores what
the element's type makes of the string. In every case a `change` event is
then simulated on the value element. -/
def setValue (s : Completer) (resultItem : SetValueArg) : Completer :=
  let s1 :=
    match resultItem with
    | .text t =>
      if s.settings.allowFreeInput then
        { s with settings.valueElement.value := s.settings.valueElement.sanitize t }
      else s
    | .item it =>
      if !s.settings.onSetValue it s.inputElement.value then
        let value := it.dataValue
        let name := it.dataName
        { s with
          inputElement.value := s.inputElement.sanitize (assigned name)
          settings.valueElement.value := s.settings.valueElement.sanitize (assigned value) }
      else s
  { s1 with settings.valueElement.changes := s1.settings.valueElement.changes + 1 }

/-! ## Selection state machine -/

/-- `eventIsNavigationKeyStroke`. -/
def eventIsNavigationKeyStroke (keyCode : Nat) : Bool :=
  keyCode == KEY_RETURN || keyCode == KEY_TAB || keyCode == KEY_UP || keyCode == KEY_DOWN

/-- The loop over the rendered items after a Down key, from index `index` on,
threading the container's `scrollTop`: the item at the selection index is
scrolled to and marked, every other item is unmarked. -/
def downEach (g : Geometry) (selectedItem : Int) :
    List ResultItem → Nat → Int → List ResultItem × Int
  | [], _, scrollTop => ([], scrollTop)
  | item :: rest, index, scrollTop =>
    if (index : Int) = selectedItem then
      let topOffset := g.innerScrollOffset index
      let scrollTop1 :=
        if topOffset > g.containerHeight - g.itemHeight index then topOffset
        else if topOffset = 0 then 0
        else scrollTop
      let r := downEach g selectedItem rest (index + 1) scrollTop1
      ({ item with selected := true } :: r.1, r.2)
    else
      let r := downEach g selectedItem rest (index + 1) scrollTop
      ({ item with selected := false } :: r.1, r.2)

/-- The loop over the rendered items after an Up key. -/
def upEach (g : Geometry) (selectedItem : Int) :
    List ResultItem → Nat → Int → List ResultItem × Int
  | [], _, scrollTop => ([], scrollTop)
  | item :: rest, index, scrollTop =>
    if (index : Int) = selectedItem then
      let topOffset := g.innerScrollOffset index
      let scrollTop1 :=
        if topOffset < scrollTop then topOffset
        else if topOffset > scrollTop then topOffset
        else scrollTop
      let r := upEach g selectedItem rest (index + 1) scrollTop1
      ({ item with selected := true } :: r.1, r.2)
    else
      let r := upEach g selectedItem rest (index + 1) scrollTop
      ({ item with selected := false } :: r.1, r.2)

/-- `navigateAutoComplete` for a `keydown` event with the given key code. -/
def navigateAutoComplete (s : Completer) (keyCode : Nat) (g : Geometry) : Completer :=
  if eventIsNavigationKeyStroke keyCode && getActiveContainer s then
    if keyCode = KEY_DOWN then
      let selectedItem := s.settings.selectedItem + 1
      let s1 :=
        if selectedItem < (s.itemCount : Int) then
          { s with settings.selectedItem := selectedItem }
        else
          { s with settings.selectedItem := 0 }
      let r := downEach g s1.settings.selectedItem (getAllResultItems s1) 0 s1.scrollTop
      { s1 with resultItems := r.1, scrollTop := r.2 }
    else if keyCode = KEY_UP then
      let selectedItem := s.settings.selectedItem - 1
      let s1 :=
        if selectedItem ≥ 0 then
          { s with settings.selectedItem := selectedItem }
        else
          { s with settings.selectedItem := (s.itemCount : Int) - 1 }
      let r := upEach g s1.settings.selectedItem (getAllResultItems s1) 0 s1.scrollTop
      { s1 with resultItems := r.1, scrollTop := r.2 }
    else if keyCode = KEY_RETURN ∨ keyCode = KEY_TAB then
      if !getActiveContainer s then s
      else
        match (getAllResultItems s).find? (fun item => item.selected) with
        | some selectedItem => setValue s (.item selectedItem)
        | none => disable (setValue s (.text s.inputElement.value))
    else s
  else s

/-! ## Event listeners -/

/-- The characters `String.prototype.trim` removes: white space and line
terminators. -/
def isTrimmed (c : Char) : Bool :=
  let n := c.toNat
  (9 ≤ n && n ≤ 13) || n == 32 || n == 160 || n == 5760 || (8192 ≤ n && n ≤ 8202)
    || n == 8232 || n == 8233 || n == 8239 || n == 8287 || n == 12288 || n == 65279

/-- Whether `value.trim() === ''`. -/
def trimIsEmpty (value : String) : Bool :=
  value.toList.all isTrimmed

/-- What reaches the completer: the events it listens to on the input field
and the rendered items, the user's edit of the field text, the firing of a
debounce timer, the completion of a request with a response, the
end of a fade-out, and the host page's direct calls of `sendRequest` and
`disable`. -/
inductive Event where
  | focus
  | blur
  | keydown (keyCode : Nat) (g : Geometry)
  | keyup (keyCode : Nat)
  | edit (text : String)
  | mousedown (index : Nat)
  | timeout (id : Nat)
  | complete (id : Nat) (response : Response)
  | fadeFinished
  | callSendRequest
  | callDisable

/-- Prototype's `Ajax.Request#success`, which decides the callback a completed
request gets: no status, a status of the 2xx family, or 304. -/
def isSuccessStatus (status : Nat) : Bool :=
  status == 0 || (200 ≤ status && status < 300) || status == 304

/-- The listeners of `addListeners` and `enable`, and the callbacks of the
timers and requests. A timer fires only while it is pending and a request
completes only while it is in flight; an exception ends the callback and
leaves the state as it was when raised. The options of the request hold
`onSuccess` and `encoding` only: on completion Prototype calls `onSuccess`
when `isSuccessStatus` holds of the status and otherwise `onFailure`, which
is not registered, so nothing of the completer runs. Prototype takes a
completed request out of `Ajax.activeRequestCount` after the callback. The
listeners that only reposition the container (`scroll`, `resize`) change
nothing of the state kept here. -/
def step (dom : String → List ResultItem) (s : Completer) : Event → Completer
  | .focus => if s.settings.shouldCompleteOnFocus then sendRequest s else s
  | .blur =>
    let s1 := disable s
    if trimIsEmpty s1.settings.valueElement.value then
      { s1 with endWithoutValue := s1.endWithoutValue ++ [s1.inputElement.value] }
    else s1
  | .keydown keyCode g => navigateAutoComplete s keyCode g
  | .keyup keyCode => if !eventIsNavigationKeyStroke keyCode then sendRequest s else s
  | .edit text => { s with inputElement.value := text }
  | .mousedown index =>
    match (getAllResultItems s).get? index with
    | some item => setValue s (.item item)
    | none => s
  | .timeout id =>
    if id ∈ s.timers then
      (onRequestTimeout { s with timers := s.timers.filter (fun u => u ≠ id) }).state
    else s
  | .complete id response =>
    if id ∈ s.requests then
      let s0 := { s with requests := s.requests.filter (fun q => q ≠ id) }
      let s1 := if isSuccessStatus response.status then (onSuccess dom s0 response).state else s0
      { s1 with activeRequestCount := s1.activeRequestCount - 1 }
    else s
  | .fadeFinished =>
    if s.fades > 0 then { s with fades := s.fades - 1, containerInDocument := false } else s
  | .callSendRequest => sendRequest s
  | .callDisable => disable s

/-- The state after a sequence of events. -/
def run (dom : String → List ResultItem) (s : Completer) (events : List Event) : Completer :=
  events.foldl (step dom) s

/-! ## The spec's item model -/

/-- A candidate item as the specification describes it: four strings. -/
structure CandidateItem where
  name : String
  value : String
  caption : String
  title : String
  deriving DecidableEq, Repr

/-- The specification's defaulting rules for one record of a structured
payload: `name` and `value` default to the empty string, `caption` and `title`
to the (defaulted) name. -/
def CandidateItem.ofRecord (r : Record) : CandidateItem :=
  let name := r.name.getD ""
  { name := name
    value := r.value.getD ""
    caption := r.caption.getD name
    title := r.title.getD name }

/-- A candidate item seen as a list entry with all four fields present. -/
def CandidateItem.toRecord (c : CandidateItem) : Record :=
  { name := some c.name, value := some c.value, caption := some c.caption, title := some c.title }

/-! ## Invariants -/

/-- The scheduler's part of the state. -/
def sched (s : Completer) : List Nat × List Nat × Option Nat × Option Nat × Nat × Nat :=
  (s.timers, s.requests, s.requestTimeout, s.currentRequest, s.nextTimer, s.nextRequest)

/-- The scheduler's invariant: the only timer that can be pending is the one
`requestTimeout` names, the only request that can be in flight is
`currentRequest`, and no request is in flight while a timer is pending. -/
def SchedInv (s : Completer) : Prop :=
  (s.timers = [] ∨ ∃ t, s.timers = [t] ∧ s.requestTimeout = some t ∧ t ≠ 0)
  ∧ (s.requests = [] ∨ ∃ r, s.requests = [r] ∧ s.currentRequest = some r)
  ∧ (s.timers ≠ [] → s.requests = [])
  ∧ s.nextTimer ≠ 0

/-- What a step that creates no request establishes: the invariant, and the
same number of requests created so far. -/
def Quiet (s s' : Completer) : Prop :=
  SchedInv s' ∧ s'.nextRequest = s.nextRequest

/-! ## Example values -/

/-- A browser reading of markup for the examples: one unselected item without
data attributes for every `<li`. -/
def exampleDom (markup : String) : List ResultItem :=
  (scanLi markup.toList).map (fun _ => { dataName := none, dataValue := none, selected := false })

/-- The default settings with the endpoint `/search`. -/
def exampleSettings : Settings :=
  { defaultSettings (hiddenField "") with requestUrl := some "/search" }

/-- A completer just constructed on a field holding `ab`. -/
def exampleCompleter : Completer :=
  construct exampleSettings (textInput "ab")

/-- A pre-rendered response with `n` list entries. -/
def htmlResponse (status n : Nat) : Response :=
  { status := status
    responseText := String.join (List.replicate n "<li class=\"autocomplete-result-item\">x</li>")
    responseJSON := none
    contentType := some "text/html" }

/-- The structured response of the specification's example. -/
def jsonExample : Response :=
  { status := 200
    responseText := ""
    responseJSON := some
      { success := some true
        error := none
        list := some
          [ { name := some "A", value := none, caption := none, title := none },
            { name := some "B", value := some "b2", caption := none, title := none } ] }
    contentType := some "application/json" }

/-- Items twenty pixels high in a container of a hundred. -/
def exampleGeometry : Geometry :=
  { innerScrollOffset := fun index => 20 * index
    itemHeight := fun _ => 20
    containerHeight := 100 }

/-- The panel open on three items, none selected: focus, the debounce timer,
the response. -/
def openPanel : Completer :=
  run exampleDom exampleCompleter [.focus, .timeout 1, .complete 0 (htmlResponse 200 3)]

/-- The panel after three Down keys: the third item is selected. -/
def selectedPanel : Completer :=
  run exampleDom openPanel
    [.keydown KEY_DOWN exampleGeometry, .keydown KEY_DOWN exampleGeometry,
     .keydown KEY_DOWN exampleGeometry]

/-- The panel after the user typed on and a response with a single item
replaced the three. -/
def narrowedPanel : Completer :=
  run exampleDom selectedPanel
    [.edit "abc", .keyup 67, .timeout 2, .complete 1 (htmlResponse 200 1)]

/-- The panel open on a single item, none selected. -/
def singlePanel : Completer :=
  run exampleDom exampleCompleter [.focus, .timeout 1, .complete 0 (htmlResponse 200 1)]

/-- A completer that was told not to send empty requests, on an empty
field. -/
def noEmptyRequests : Completer :=
  construct { exampleSettings with allowEmptyRequests := false } (textInput "")

/-- A completer that does not accept free input, with `v0` stored. -/
def noFreeInput : Completer :=
  construct { defaultSettings (hiddenField "v0") with allowFreeInput := false } (textInput "ab")

/-- A response with an error status and an error page as its body. -/
def errorResponse : Response :=
  { status := 500
    responseText := "Internal Server Error"
    responseJSON := none
    contentType := some "text/html" }

/-- A completer whose endpoint already carries a query string. -/
def queryCompleter : Completer :=
  construct { exampleSettings with requestUrl := some "/search?x=1" } (textInput "ab")

/-- A completer whose value element is a text field. -/
def textValueCompleter : Completer :=
  construct { defaultSettings (textField "") with requestUrl := some "/search" } (textInput "ab")

/-- A completer that reports errors. -/
def reportingCompleter : Completer :=
  construct { exampleSettings with reportErrors := true } (textInput "ab")

/-! ## Request URL: lemmas -/

theorem indexOfFrom_ne_iff_mem (c : Char) (cs : List Char) (i : Nat) :
    indexOfFrom c cs i ≠ -1 ↔ c ∈ cs := by
  induction cs generalizing i with
  | nil => simp [indexOfFrom]
  | cons d ds ih =>
    unfold indexOfFrom
    by_cases h : d = c
    · subst h
      simp only [if_true, List.mem_cons, true_or, iff_true]
      omega
    · have h2 : ¬ c = d := fun e => h e.symm
      simp only [h, if_false, List.mem_cons, h2, false_or]
      exact ih (i + 1)

theorem downEach_fst_length (g : Geometry) (sel : Int) (items : List ResultItem) (i : Nat) (t : Int) :
    (downEach g sel items i t).1.length = items.length := by
  induction items generalizing i t with
  | nil => simp [downEach]
  | cons a as ih =>
    unfold downEach
    split <;> simp [ih]

theorem navigate_down_index (s : Completer) (g : Geometry) (h : getActiveContainer s = true) :
    (navigateAutoComplete s KEY_DOWN g).settings.selectedItem =
      (if s.settings.selectedItem + 1 < (s.itemCount : Int) then s.settings.selectedItem + 1 else 0)
    ∧ (navigateAutoComplete s KEY_DOWN g).itemCount = s.itemCount
    ∧ getActiveContainer (navigateAutoComplete s KEY_DOWN g) = true := by
  have hk : eventIsNavigationKeyStroke KEY_DOWN = true := by decide
  unfold navigateAutoComplete
  simp only [hk, h, Bool.and_self, if_true]
  unfold getActiveContainer at h
  split <;> simp [getActiveContainer, h]

theorem navigate_up_index (s : Completer) (g : Geometry) (h : getActiveContainer s = true) :
    (navigateAutoComplete s KEY_UP g).settings.selectedItem =
      (if s.settings.selectedItem - 1 ≥ 0 then s.settings.selectedItem - 1 else (s.itemCount : Int) - 1)
    ∧ (navigateAutoComplete s KEY_UP g).itemCount = s.itemCount
    ∧ getActiveContainer (navigateAutoComplete s KEY_UP g) = true := by
  have hk : eventIsNavigationKeyStroke KEY_UP = true := by decide
  have hne : ¬ KEY_UP = KEY_DOWN := by decide
  unfold navigateAutoComplete
  simp only [hk, h, Bool.and_self, if_true, hne, if_false]
  unfold getActiveContainer at h
  split <;> simp [getActiveContainer, h]

/-! ## Response normaliser: lemmas -/

theorem jsonItem_snd (s : Completer) (item : Record) (i : Nat) :
    (jsonItem s item i).2 = (CandidateItem.ofRecord item).toRecord := by
  cases item with
  | mk n v c t =>
    cases n <;> cases v <;> cases c <;> cases t <;> rfl

theorem jsonItem_itemCount (s : Completer) (item : Record) (i : Nat) :
    (jsonItem s item i).1.itemCount = s.itemCount + 1 := rfl

theorem jsonEach_spec (s : Completer) (list : List Record) (i : Nat) :
    (jsonEach s list i).1.itemCount = s.itemCount + list.length
    ∧ (jsonEach s list i).2 = list.map (fun r => (CandidateItem.ofRecord r).toRecord) := by
  induction list generalizing s i with
  | nil => simp [jsonEach]
  | cons a as ih =>
    unfold jsonEach
    obtain ⟨h1, h2⟩ := ih (jsonItem s a i).1 (i + 1)
    simp only [h1, h2, jsonItem_itemCount, jsonItem_snd, List.length_cons, List.map_cons]
    constructor
    · omega
    · trivial

theorem abortCurrentRequest_itemCount (s : Completer) : (abortCurrentRequest s).itemCount = s.itemCount := by
  unfold abortCurrentRequest; split <;> rfl

theorem clearRequestTimeout_itemCount (s : Completer) : (clearRequestTimeout s).itemCount = s.itemCount := by
  unfold clearRequestTimeout; split
  · rfl
  · split <;> rfl

theorem disable_itemCount (s : Completer) : (disable s).itemCount = s.itemCount := by
  unfold disable
  simp only
  split <;> simp [abortCurrentRequest_itemCount, clearRequestTimeout_itemCount]

theorem enable_itemCount (dom : String → List ResultItem) (s : Completer) :
    (enable dom s).itemCount = s.itemCount := by
  unfold enable
  split
  · rfl
  · exact disable_itemCount s

theorem handleHtmlResponse_of_marker (s : Completer) (html : String)
    (h : scanLi html.toList ≠ []) :
    handleHtmlResponse s html
      = .ok { s with itemList := html, itemCount := (scanLi html.toList).length } := by
  unfold handleHtmlResponse matchLi
  cases hs : scanLi html.toList with
  | nil => exact absurd hs h
  | cons m ms => rfl

theorem handleHtmlResponse_of_no_marker (s : Completer) (html : String)
    (h : scanLi html.toList = []) :
    (handleHtmlResponse s html).completed = false
    ∧ (handleHtmlResponse s html).state = { s with itemList := html } := by
  unfold handleHtmlResponse matchLi
  rw [h]
  exact ⟨rfl, rfl⟩

/-! ## Request scheduler: the invariant -/

theorem SchedInv.of_same_sched {s s' : Completer} (h : sched s' = sched s) (hi : SchedInv s) :
    SchedInv s' := by
  simp only [sched, Prod.mk.injEq] at h
  obtain ⟨h1, h2, h3, h4, h5, -⟩ := h
  unfold SchedInv
  rw [h1, h2, h3, h4, h5]
  exact hi

theorem SchedInv.of_idle {s : Completer} (ht : s.timers = []) (hr : s.requests = [])
    (hn : s.nextTimer ≠ 0) : SchedInv s := by
  unfold SchedInv
  simp [ht, hr, hn]

theorem abort_spec (s : Completer) (h : SchedInv s) :
    (abortCurrentRequest s).requests = [] ∧ (abortCurrentRequest s).timers = s.timers
    ∧ (abortCurrentRequest s).requestTimeout = s.requestTimeout
    ∧ (abortCurrentRequest s).nextTimer = s.nextTimer
    ∧ (abortCurrentRequest s).dispatched = s.dispatched := by
  obtain ⟨-, h2, -, -⟩ := h
  unfold abortCurrentRequest
  split
  · next hc =>
    rcases h2 with h2 | ⟨r, -, h3⟩
    · simp [h2]
    · rw [hc] at h3; cases h3
  · next r hc =>
    rcases h2 with h2 | ⟨r', h3, h4⟩
    · simp [h2]
    · rw [hc] at h4
      cases h4
      simp [h3]

theorem clear_spec (s : Completer) (h : SchedInv s) :
    (clearRequestTimeout s).timers = [] ∧ (clearRequestTimeout s).requests = s.requests
    ∧ (clearRequestTimeout s).nextTimer = s.nextTimer
    ∧ (clearRequestTimeout s).dispatched = s.dispatched := by
  obtain ⟨h1, -, -, -⟩ := h
  unfold clearRequestTimeout
  split
  · next hc =>
    rcases h1 with h1 | ⟨t, -, h3, -⟩
    · simp [h1]
    · rw [hc] at h3; cases h3
  · next t hc =>
    rcases h1 with h1 | ⟨t', h3, h4, h5⟩
    · split <;> simp [h1]
    · rw [hc] at h4
      cases h4
      simp [h3, h5]

theorem clear_abort_inv (s : Completer) (h : SchedInv s) :
    SchedInv (abortCurrentRequest s) := by
  obtain ⟨ha1, ha2, ha3, ha4, -⟩ := abort_spec s h
  obtain ⟨h1, -, -, h4⟩ := h
  refine ⟨?_, Or.inl ha1, fun _ => ha1, ?_⟩
  · rw [ha2, ha3]; exact h1
  · rw [ha4]; exact h4

theorem cancel_spec (s : Completer) (h : SchedInv s) :
    (clearRequestTimeout (abortCurrentRequest s)).timers = []
    ∧ (clearRequestTimeout (abortCurrentRequest s)).requests = []
    ∧ (clearRequestTimeout (abortCurrentRequest s)).nextTimer = s.nextTimer
    ∧ (clearRequestTimeout (abortCurrentRequest s)).dispatched = s.dispatched := by
  obtain ⟨ha1, -, -, ha4, ha5⟩ := abort_spec s h
  obtain ⟨hc1, hc2, hc3, hc4⟩ := clear_spec _ (clear_abort_inv s h)
  exact ⟨hc1, hc2.trans ha1, hc3.trans ha4, hc4.trans ha5⟩

theorem sendRequest_spec (s : Completer) (h : SchedInv s) :
    (sendRequest s).timers = [s.nextTimer] ∧ (sendRequest s).requests = []
    ∧ (sendRequest s).requestTimeout = some s.nextTimer
    ∧ (sendRequest s).nextTimer = s.nextTimer + 1
    ∧ (sendRequest s).dispatched = s.dispatched := by
  obtain ⟨h1, h2, h3, h4⟩ := cancel_spec s h
  unfold sendRequest
  simp [h1, h2, h3, h4]

theorem sendRequest_inv (s : Completer) (h : SchedInv s) : SchedInv (sendRequest s) := by
  obtain ⟨h1, h2, h3, h4, -⟩ := sendRequest_spec s h
  have hn := h.2.2.2
  refine ⟨Or.inr ⟨s.nextTimer, h1, h3, hn⟩, Or.inl h2, fun _ => h2, ?_⟩
  rw [h4]; omega

theorem disable_spec (s : Completer) (h : SchedInv s) :
    (disable s).timers = [] ∧ (disable s).requests = [] ∧ (disable s).nextTimer = s.nextTimer
    ∧ (disable s).dispatched = s.dispatched := by
  obtain ⟨h1, h2, h3, h4⟩ := cancel_spec s h
  unfold disable
  simp only
  split <;> simp [h1, h2, h3, h4]

theorem disable_inv (s : Completer) (h : SchedInv s) : SchedInv (disable s) := by
  obtain ⟨h1, h2, h3, -⟩ := disable_spec s h
  exact SchedInv.of_idle h1 h2 (by rw [h3]; exact h.2.2.2)

theorem sched_nextRequest {s s' : Completer} (h : sched s' = sched s) :
    s'.nextRequest = s.nextRequest := by
  simp only [sched, Prod.mk.injEq] at h
  exact h.2.2.2.2.2

theorem abortCurrentRequest_nextRequest (s : Completer) :
    (abortCurrentRequest s).nextRequest = s.nextRequest := by
  unfold abortCurrentRequest; split <;> rfl

theorem clearRequestTimeout_nextRequest (s : Completer) :
    (clearRequestTimeout s).nextRequest = s.nextRequest := by
  unfold clearRequestTimeout; split
  · rfl
  · split <;> rfl

theorem sendRequest_nextRequest (s : Completer) : (sendRequest s).nextRequest = s.nextRequest := by
  unfold sendRequest
  simp [clearRequestTimeout_nextRequest, abortCurrentRequest_nextRequest]

theorem disable_nextRequest (s : Completer) : (disable s).nextRequest = s.nextRequest := by
  unfold disable
  simp only
  split <;> simp [clearRequestTimeout_nextRequest, abortCurrentRequest_nextRequest]

theorem setValue_sched (s : Completer) (a : SetValueArg) : sched (setValue s a) = sched s := by
  unfold setValue
  cases a <;> simp only <;> split <;> rfl

theorem jsonEach_sched (s : Completer) (list : List Record) (i : Nat) :
    sched (jsonEach s list i).1 = sched s := by
  induction list generalizing s i with
  | nil => rfl
  | cons a as ih =>
    unfold jsonEach
    simp only
    rw [ih]
    rfl

theorem handleJsonResponse_sched (s : Completer) (j : Option JsonPayload) :
    sched (handleJsonResponse s j).1.state = sched s := by
  unfold handleJsonResponse
  split
  · rfl
  · split
    · rfl
    · exact jsonEach_sched _ _ _

theorem handleHtmlResponse_sched (s : Completer) (html : String) :
    sched (handleHtmlResponse s html).state = sched s := by
  unfold handleHtmlResponse
  simp only
  split <;> rfl

theorem Quiet.of_frame {s s' : Completer} (h : sched s' = sched s) (hi : SchedInv s) :
    Quiet s s' :=
  ⟨SchedInv.of_same_sched h hi, sched_nextRequest h⟩

theorem Quiet.trans {s s' s'' : Completer} (h1 : Quiet s s') (h2 : Quiet s' s'') : Quiet s s'' :=
  ⟨h2.1, h2.2.trans h1.2⟩

theorem disable_quiet (s : Completer) (h : SchedInv s) : Quiet s (disable s) :=
  ⟨disable_inv s h, disable_nextRequest s⟩

theorem sendRequest_quiet (s : Completer) (h : SchedInv s) : Quiet s (sendRequest s) :=
  ⟨sendRequest_inv s h, sendRequest_nextRequest s⟩

theorem enable_quiet (dom : String → List ResultItem) (s : Completer) (h : SchedInv s) :
    Quiet s (enable dom s) := by
  unfold enable
  split
  · exact Quiet.of_frame rfl h
  · exact disable_quiet s h

theorem handleResponse_quiet (dom : String → List ResultItem) (s : Completer) (r : Response)
    (h : SchedInv s) : Quiet s (handleResponse dom s r).state := by
  unfold handleResponse
  simp only
  split
  · exact Quiet.of_frame rfl h
  · next header _ =>
    have hs : sched { s with itemCount := 0, itemList := "" } = sched s := rfl
    split
    · next s2 e hh =>
      simp only [Outcome.state]
      refine Quiet.of_frame ?_ h
      rw [← hs]
      split at hh
      · have := handleJsonResponse_sched { s with itemCount := 0, itemList := "" } r.responseJSON
        rw [hh] at this; exact this
      · have := handleHtmlResponse_sched { s with itemCount := 0, itemList := "" } r.responseText
        rw [hh] at this; exact this
    · next s2 hh =>
      simp only [Outcome.state]
      have h2 : sched s2 = sched s := by
        rw [← hs]
        split at hh
        · have := handleJsonResponse_sched { s with itemCount := 0, itemList := "" } r.responseJSON
          rw [hh] at this; exact this
        · have := handleHtmlResponse_sched { s with itemCount := 0, itemList := "" } r.responseText
          rw [hh] at this; exact this
      exact (Quiet.of_frame h2 h).trans (enable_quiet dom s2 (SchedInv.of_same_sched h2 h))

theorem clamp_sched (s : Completer) : sched (clampActiveRequestCount s) = sched s := by
  unfold clampActiveRequestCount
  split <;> rfl

theorem clamp_quiet (s s' : Completer) (h : Quiet s s') : Quiet s (clampActiveRequestCount s') :=
  h.trans (Quiet.of_frame (clamp_sched s') h.1)

theorem handleResponse_clamp_quiet (dom : String → List ResultItem) (s : Completer) (r : Response)
    (h : SchedInv s) :
    Quiet s (match handleResponse dom s r with
      | .threw s1 e => Outcome.threw s1 e
      | .ok s1 => Outcome.ok (clampActiveRequestCount s1)).state := by
  have hq := handleResponse_quiet dom s r h
  cases hr : handleResponse dom s r with
  | ok s1 =>
    rw [hr] at hq
    exact clamp_quiet s s1 hq
  | threw s1 e =>
    rw [hr] at hq
    exact hq

theorem onSuccess_quiet (dom : String → List ResultItem) (s : Completer) (r : Response)
    (h : SchedInv s) : Quiet s (onSuccess dom s r).state := by
  unfold onSuccess
  split
  · exact clamp_quiet s _ (Quiet.of_frame rfl h)
  · split
    · exact handleResponse_clamp_quiet dom s r h
    · split
      · exact handleResponse_clamp_quiet dom s r h
      · split
        · exact clamp_quiet s _ (Quiet.of_frame rfl h)
        · exact clamp_quiet s _ (Quiet.of_frame rfl h)

theorem navigateAutoComplete_quiet (s : Completer) (k : Nat) (g : Geometry) (h : SchedInv s) :
    Quiet s (navigateAutoComplete s k g) := by
  unfold navigateAutoComplete
  split
  · split
    · simp only
      split <;> exact Quiet.of_frame rfl h
    · split
      · simp only
        split <;> exact Quiet.of_frame rfl h
      · split
        · split
          · exact Quiet.of_frame rfl h
          · split
            · exact Quiet.of_frame (setValue_sched _ _) h
            · exact (Quiet.of_frame (setValue_sched _ _) h).trans
                (disable_quiet _ (SchedInv.of_same_sched (setValue_sched _ _) h))
        · exact Quiet.of_frame rfl h
  · exact Quiet.of_frame rfl h

theorem onRequestTimeout_inv (s : Completer) (ht : s.timers = []) (hr : s.requests = [])
    (hn : s.nextTimer ≠ 0) : SchedInv (onRequestTimeout s).state := by
  unfold onRequestTimeout
  split
  · exact SchedInv.of_idle ht hr hn
  · simp only [Outcome.state]
    refine ⟨Or.inl ht, Or.inr ⟨s.nextRequest, ?_, rfl⟩, fun h => absurd ht h, hn⟩
    simp [hr]

theorem mem_timers_eq {s : Completer} (h : SchedInv s) {id : Nat} (hm : id ∈ s.timers) :
    s.timers = [id] := by
  rcases h.1 with h1 | ⟨t, h1, -, -⟩
  · rw [h1] at hm; cases hm
  · rw [h1] at hm
    simp only [List.mem_singleton] at hm
    rw [h1, hm]

theorem mem_requests_eq {s : Completer} (h : SchedInv s) {id : Nat} (hm : id ∈ s.requests) :
    s.requests = [id] := by
  rcases h.2.1 with h1 | ⟨t, h1, -⟩
  · rw [h1] at hm; cases hm
  · rw [h1] at hm
    simp only [List.mem_singleton] at hm
    rw [h1, hm]

theorem step_quiet (dom : String → List ResultItem) (s : Completer) (e : Event) (h : SchedInv s)
    (he : ∀ id, e = .timeout id → id ∉ s.timers) : Quiet s (step dom s e) := by
  cases e with
  | focus =>
    simp only [step]
    split
    · exact sendRequest_quiet s h
    · exact Quiet.of_frame rfl h
  | blur =>
    simp only [step]
    split
    · exact (disable_quiet s h).trans (Quiet.of_frame rfl (disable_inv s h))
    · exact disable_quiet s h
  | keydown k g => exact navigateAutoComplete_quiet s k g h
  | keyup k =>
    simp only [step]
    split
    · exact sendRequest_quiet s h
    · exact Quiet.of_frame rfl h
  | edit t => exact Quiet.of_frame rfl h
  | mousedown i =>
    simp only [step]
    split
    · exact Quiet.of_frame (setValue_sched _ _) h
    · exact Quiet.of_frame rfl h
  | timeout id =>
    simp only [step]
    rw [if_neg (he id rfl)]
    exact Quiet.of_frame rfl h
  | complete id r =>
    simp only [step]
    split
    · next hm =>
      have hreq := mem_requests_eq h hm
      have h0 : SchedInv { s with requests := s.requests.filter (fun q => q ≠ id) } := by
        refine ⟨h.1, Or.inl ?_, fun _ => ?_, h.2.2.2⟩ <;> simp [hreq]
      split
      · have hq := onSuccess_quiet dom _ r h0
        exact ⟨SchedInv.of_same_sched rfl hq.1, hq.2⟩
      · exact ⟨SchedInv.of_same_sched rfl h0, rfl⟩
    · exact Quiet.of_frame rfl h
  | fadeFinished =>
    simp only [step]
    split <;> exact Quiet.of_frame rfl h
  | callSendRequest => exact sendRequest_quiet s h
  | callDisable => exact disable_quiet s h

theorem step_inv (dom : String → List ResultItem) (s : Completer) (e : Event) (h : SchedInv s) :
    SchedInv (step dom s e) := by
  by_cases he : ∀ id, e = .timeout id → id ∉ s.timers
  · exact (step_quiet dom s e h he).1
  · push_neg at he
    obtain ⟨id, rfl, hm⟩ := he
    have ht := mem_timers_eq h hm
    have hr : s.requests = [] := h.2.2.1 (by rw [ht]; simp)
    simp only [step, if_pos hm]
    exact onRequestTimeout_inv _ (by simp [ht]) hr h.2.2.2

theorem construct_inv (settings : Settings) (inputElement : InputElement) :
    SchedInv (construct settings inputElement) :=
  SchedInv.of_idle rfl rfl (by simp [construct])

theorem run_inv (dom : String → List ResultItem) (s : Completer) (events : List Event)
    (h : SchedInv s) : SchedInv (run dom s events) := by
  induction events generalizing s with
  | nil => exact h
  | cons e es ih => exact ih (step dom s e) (step_inv dom s e h)

theorem SchedInv.length_le {s : Completer} (h : SchedInv s) :
    s.timers.length ≤ 1 ∧ s.requests.length ≤ 1 := by
  constructor
  · rcases h.1 with h1 | ⟨t, h1, -, -⟩ <;> simp [h1]
  · rcases h.2.1 with h1 | ⟨t, h1, -⟩ <;> simp [h1]

theorem sendRequest_timers_ne_nil (s : Completer) : (sendRequest s).timers ≠ [] := by
  unfold sendRequest
  simp

/-! ## Selection index: what changes it -/

theorem abortCurrentRequest_settings (s : Completer) :
    (abortCurrentRequest s).settings = s.settings := by
  unfold abortCurrentRequest; split <;> rfl

theorem clearRequestTimeout_settings (s : Completer) :
    (clearRequestTimeout s).settings = s.settings := by
  unfold clearRequestTimeout; split
  · rfl
  · split <;> rfl

theorem sendRequest_settings (s : Completer) : (sendRequest s).settings = s.settings := by
  unfold sendRequest
  simp [clearRequestTimeout_settings, abortCurrentRequest_settings]

theorem disable_settings (s : Completer) : (disable s).settings = s.settings := by
  unfold disable
  simp only
  split <;> simp [clearRequestTimeout_settings, abortCurrentRequest_settings]

theorem setValue_selectedItem (s : Completer) (a : SetValueArg) :
    (setValue s a).settings.selectedItem = s.settings.selectedItem := by
  unfold setValue
  cases a <;> simp only <;> split <;> rfl

theorem jsonEach_settings (s : Completer) (list : List Record) (i : Nat) :
    (jsonEach s list i).1.settings = s.settings := by
  induction list generalizing s i with
  | nil => rfl
  | cons a as ih =>
    unfold jsonEach
    simp only
    rw [ih]
    rfl

theorem handleJsonResponse_settings (s : Completer) (j : Option JsonPayload) :
    (handleJsonResponse s j).1.state.settings = s.settings := by
  unfold handleJsonResponse
  split
  · rfl
  · split
    · rfl
    · exact jsonEach_settings _ _ _

theorem handleHtmlResponse_settings (s : Completer) (html : String) :
    (handleHtmlResponse s html).state.settings = s.settings := by
  unfold handleHtmlResponse
  simp only
  split <;> rfl

theorem enable_settings (dom : String → List ResultItem) (s : Completer) :
    (enable dom s).settings = s.settings := by
  unfold enable
  split
  · rfl
  · exact disable_settings s

theorem handleResponse_settings (dom : String → List ResultItem) (s : Completer) (r : Response) :
    (handleResponse dom s r).state.settings = s.settings := by
  unfold handleResponse
  simp only
  split
  · rfl
  · next header _ =>
    have hs : ({ s with itemCount := 0, itemList := "" } : Completer).settings = s.settings := rfl
    have key : (if matchesJson header = true then
          (handleJsonResponse { s with itemCount := 0, itemList := "" } r.responseJSON).1
        else handleHtmlResponse { s with itemCount := 0, itemList := "" } r.responseText).state.settings
          = s.settings := by
      split
      · rw [handleJsonResponse_settings]
      · rw [handleHtmlResponse_settings]
    split
    · next s2 e hh =>
      rw [hh] at key
      exact key
    · next s2 hh =>
      rw [hh] at key
      simp only [Outcome.state] at key ⊢
      rw [enable_settings]
      exact key

theorem clamp_settings (s : Completer) : (clampActiveRequestCount s).settings = s.settings := by
  unfold clampActiveRequestCount
  split <;> rfl

theorem handleResponse_clamp_settings (dom : String → List ResultItem) (s : Completer)
    (r : Response) :
    (match handleResponse dom s r with
      | .threw s1 e => Outcome.threw s1 e
      | .ok s1 => Outcome.ok (clampActiveRequestCount s1)).state.settings = s.settings := by
  have hq := handleResponse_settings dom s r
  cases hr : handleResponse dom s r with
  | ok s1 =>
    rw [hr] at hq
    simp only [Outcome.state] at hq ⊢
    rw [clamp_settings]; exact hq
  | threw s1 e =>
    rw [hr] at hq
    exact hq

theorem onSuccess_settings (dom : String → List ResultItem) (s : Completer) (r : Response) :
    (onSuccess dom s r).state.settings = s.settings := by
  unfold onSuccess
  split
  · simp only [Outcome.state, clamp_settings]
  · split
    · exact handleResponse_clamp_settings dom s r
    · split
      · exact handleResponse_clamp_settings dom s r
      · split <;> simp only [Outcome.state, clamp_settings]

theorem onRequestTimeout_settings (s : Completer) :
    (onRequestTimeout s).state.settings = s.settings := by
  unfold onRequestTimeout
  split <;> rfl

theorem navigateAutoComplete_selectedItem_ge (s : Completer) (k : Nat) (g : Geometry)
    (h : -1 ≤ s.settings.selectedItem) :
    -1 ≤ (navigateAutoComplete s k g).settings.selectedItem := by
  unfold navigateAutoComplete
  split
  · split
    · simp only
      split
      · simp only; omega
      · simp only; omega
    · split
      · simp only
        split
        · simp only; omega
        · simp only; omega
      · split
        · split
          · exact h
          · split
            · rw [setValue_selectedItem]; exact h
            · rw [disable_settings, setValue_selectedItem]; exact h
        · exact h
  · exact h

theorem step_selectedItem (dom : String → List ResultItem) (s : Completer) (e : Event)
    (he : ∀ k g, e ≠ .keydown k g) :
    (step dom s e).settings.selectedItem = s.settings.selectedItem := by
  cases e with
  | focus => simp only [step]; split <;> simp [sendRequest_settings]
  | blur => simp only [step]; split <;> simp [disable_settings]
  | keydown k g => exact absurd rfl (he k g)
  | keyup k => simp only [step]; split <;> simp [sendRequest_settings]
  | edit t => rfl
  | mousedown i => simp only [step]; split <;> simp [setValue_selectedItem]
  | timeout id => simp only [step]; split <;> simp [onRequestTimeout_settings]
  | complete id r =>
    simp only [step]
    split
    · split
      · simp [onSuccess_settings]
      · rfl
    · rfl
  | fadeFinished => simp only [step]; split <;> rfl
  | callSendRequest => simp [step, sendRequest_settings]
  | callDisable => simp [step, disable_settings]

theorem step_selectedItem_ge (dom : String → List ResultItem) (s : Completer) (e : Event)
    (h : -1 ≤ s.settings.selectedItem) : -1 ≤ (step dom s e).settings.selectedItem := by
  by_cases he : ∀ k g, e ≠ .keydown k g
  · rw [step_selectedItem dom s e he]; exact h
  · push_neg at he
    obtain ⟨k, g, rfl⟩ := he
    exact navigateAutoComplete_selectedItem_ge s k g h

theorem run_selectedItem_ge (dom : String → List ResultItem) (s : Completer) (events : List Event)
    (h : -1 ≤ s.settings.selectedItem) : -1 ≤ (run dom s events).settings.selectedItem := by
  induction events generalizing s with
  | nil => exact h
  | cons e es ih => exact ih (step dom s e) (step_selectedItem_ge dom s e h)

/-! ## Commit and completion: lemmas -/

theorem stripNewlines_of_no_break (t : String)
    (h : ∀ c ∈ t.toList, c.toNat ≠ 10 ∧ c.toNat ≠ 13) : stripNewlines t = t := by
  unfold stripNewlines
  have hf : t.toList.filter (fun c => c.toNat ≠ 10 && c.toNat ≠ 13) = t.toList := by
    rw [List.filter_eq_self]
    intro c hc
    have := h c hc
    simp [this.1, this.2]
  rw [hf]
  rfl

/-- The handler `onSuccess`, whenever it is called: with `reportErrors =
false` a payload whose success flag is not true is dropped; a response without
payload, or with `success = true`, goes to `handleResponse` whatever its
status; with `reportErrors = true` a status above 299 raises the alert and
nothing else. -/
theorem onSuccess_cases (dom : String → List ResultItem) (s : Completer) (r : Response) :
    (s.settings.reportErrors = false → ∀ p, r.responseJSON = some p → successIsTrue p = false →
      onSuccess dom s r = .ok (clampActiveRequestCount s))
    ∧ (s.settings.reportErrors = false →
        (r.responseJSON = none ∨ ∃ p, r.responseJSON = some p ∧ successIsTrue p = true) →
        (∀ s1, handleResponse dom s r = .ok s1 →
          onSuccess dom s r = .ok (clampActiveRequestCount s1))
        ∧ (∀ s1 e, handleResponse dom s r = .threw s1 e → onSuccess dom s r = .threw s1 e))
    ∧ (r.status ≥ 300 → s.settings.reportErrors = true →
        onSuccess dom s r = .ok (clampActiveRequestCount
          { s with alerts := s.alerts ++ ["Ett fel har inträffat: " ++ r.responseText] })) := by
  refine ⟨?_, ?_, ?_⟩
  · intro hr p hp hs
    simp [onSuccess, hr, hp, hs]
  · intro hr hp
    rcases hp with hp | ⟨p, hp, hs⟩
    · constructor
      · intro s1 h1
        simp [onSuccess, hr, hp, h1]
      · intro s1 e h1
        simp [onSuccess, hr, hp, h1]
    · constructor
      · intro s1 h1
        simp [onSuccess, hr, hp, hs, h1]
      · intro s1 e h1
        simp [onSuccess, hr, hp, hs, h1]
  · intro hst hr
    have h299 : r.status > 299 := by omega
    simp [onSuccess, hr, h299]

/-- A request that completes with a status Prototype does not class as
successful only leaves the requests in flight: no code of the completer
runs. -/
theorem step_complete_of_failure_status (dom : String → List ResultItem) (s : Completer)
    (id : Nat) (r : Response) (hm : id ∈ s.requests) (hs : isSuccessStatus r.status = false) :
    step dom s (.complete id r)
      = { s with
          requests := s.requests.filter (fun q => q ≠ id)
          activeRequestCount := s.activeRequestCount - 1 } := by
  simp [step, hm, hs]

/-! ## The claims -/

/-- C1: in every state in which the panel exists, for any item count `n` and
any selection index `s`, a Down key handled by `navigateAutoComplete` sets the
selection index to `s + 1` when `s + 1 < n` and to `0` otherwise; from `n = 3`
and `s = -1`, four consecutive Down keys give the indices `0, 1, 2, 0`. -/
theorem navigateAutoComplete_down (dom : String → List ResultItem) (s : Completer)
    (g g2 g3 g4 : Geometry) (h : getActiveContainer s = true) :
    (navigateAutoComplete s KEY_DOWN g).settings.selectedItem =
      (if s.settings.selectedItem + 1 < (s.itemCount : Int) then s.settings.selectedItem + 1
        else 0)
    ∧ (s.itemCount = 3 → s.settings.selectedItem = -1 →
        (run dom s [.keydown KEY_DOWN g]).settings.selectedItem = 0
        ∧ (run dom s [.keydown KEY_DOWN g, .keydown KEY_DOWN g2]).settings.selectedItem = 1
        ∧ (run dom s [.keydown KEY_DOWN g, .keydown KEY_DOWN g2,
            .keydown KEY_DOWN g3]).settings.selectedItem = 2
        ∧ (run dom s [.keydown KEY_DOWN g, .keydown KEY_DOWN g2, .keydown KEY_DOWN g3,
            .keydown KEY_DOWN g4]).settings.selectedItem = 0) := by
  refine ⟨(navigate_down_index s g h).1, ?_⟩
  intro hn hs
  obtain ⟨a1, b1, c1⟩ := navigate_down_index s g h
  obtain ⟨a2, b2, c2⟩ := navigate_down_index _ g2 c1
  obtain ⟨a3, b3, c3⟩ := navigate_down_index _ g3 c2
  obtain ⟨a4, -, -⟩ := navigate_down_index _ g4 c3
  rw [hn, hs] at a1
  rw [b1, hn, a1] at a2
  rw [b2, b1, hn, a2] at a3
  rw [b3, b2, b1, hn, a3] at a4
  simp only [run, List.foldl, step]
  exact ⟨a1, a2, a3, a4⟩

/-- Witness of C1: the panel open on three items with no selection; four Down
keys select the items 0, 1, 2 and 0 again. -/
theorem navigateAutoComplete_down_witness :
    getActiveContainer openPanel = true ∧ openPanel.itemCount = 3
    ∧ openPanel.settings.selectedItem = -1
    ∧ (run exampleDom openPanel [.keydown KEY_DOWN exampleGeometry]).settings.selectedItem = 0
    ∧ (run exampleDom openPanel [.keydown KEY_DOWN exampleGeometry,
        .keydown KEY_DOWN exampleGeometry]).settings.selectedItem = 1
    ∧ (run exampleDom openPanel [.keydown KEY_DOWN exampleGeometry,
        .keydown KEY_DOWN exampleGeometry,
        .keydown KEY_DOWN exampleGeometry]).settings.selectedItem = 2
    ∧ (run exampleDom openPanel [.keydown KEY_DOWN exampleGeometry,
        .keydown KEY_DOWN exampleGeometry, .keydown KEY_DOWN exampleGeometry,
        .keydown KEY_DOWN exampleGeometry]).settings.selectedItem = 0 :=
  ⟨by decide, by decide, by decide,
    (navigateAutoComplete_down exampleDom openPanel exampleGeometry exampleGeometry
      exampleGeometry exampleGeometry (by decide)).2 (by decide) (by decide)⟩

/-- Counterexample to C2 as stated: after three Down keys on a list of three
items and a new response with a single item, the panel exists with item count
1 and selection index 2, and an Up key selects index 1, not 0. -/
theorem navigateAutoComplete_up_single_item_counterexample :
    getActiveContainer narrowedPanel = true ∧ narrowedPanel.itemCount = 1
    ∧ narrowedPanel.settings.selectedItem = 2
    ∧ (navigateAutoComplete narrowedPanel KEY_UP exampleGeometry).settings.selectedItem = 1
    ∧ (navigateAutoComplete narrowedPanel KEY_UP exampleGeometry).settings.selectedItem ≠ 0 := by
  decide

/-- C2, amended: in every state in which the panel exists, for any item count
`n` and any selection index `s`, an Up key handled by `navigateAutoComplete`
sets the selection index to `s - 1` when `s - 1 ≥ 0` and to `n - 1` otherwise;
so navigating up from index 0 wraps to `n - 1`, and with `n = 1` navigating (up
or down) from a selection index of `-1` or `0` selects index 0. -/
theorem navigateAutoComplete_up (s : Completer) (g : Geometry)
    (h : getActiveContainer s = true) :
    (navigateAutoComplete s KEY_UP g).settings.selectedItem =
      (if s.settings.selectedItem - 1 ≥ 0 then s.settings.selectedItem - 1
        else (s.itemCount : Int) - 1)
    ∧ (s.settings.selectedItem = 0 →
        (navigateAutoComplete s KEY_UP g).settings.selectedItem = (s.itemCount : Int) - 1)
    ∧ (s.itemCount = 1 → s.settings.selectedItem = -1 ∨ s.settings.selectedItem = 0 →
        (navigateAutoComplete s KEY_UP g).settings.selectedItem = 0
        ∧ (navigateAutoComplete s KEY_DOWN g).settings.selectedItem = 0) := by
  have hu := (navigate_up_index s g h).1
  have hd := (navigate_down_index s g h).1
  refine ⟨hu, ?_, ?_⟩
  · intro h0
    rw [hu, h0]; simp
  · intro hn hs
    rw [hu, hd, hn]
    rcases hs with hs | hs <;> rw [hs] <;> simp

/-- Witness of the amended C2: on the panel with a single unselected item both
keys select index 0, and on that panel with index 0 selected Up wraps to
`n - 1 = 0`. -/
theorem navigateAutoComplete_up_witness :
    getActiveContainer singlePanel = true ∧ singlePanel.itemCount = 1
    ∧ singlePanel.settings.selectedItem = -1
    ∧ ((navigateAutoComplete singlePanel KEY_UP exampleGeometry).settings.selectedItem = 0
      ∧ (navigateAutoComplete singlePanel KEY_DOWN exampleGeometry).settings.selectedItem = 0)
    ∧ (navigateAutoComplete (navigateAutoComplete singlePanel KEY_DOWN exampleGeometry) KEY_UP
        exampleGeometry).settings.selectedItem
        = ((navigateAutoComplete singlePanel KEY_DOWN exampleGeometry).itemCount : Int) - 1 :=
  ⟨by decide, by decide, by decide,
    (navigateAutoComplete_up singlePanel exampleGeometry (by decide)).2.2 (by decide)
      (Or.inl (by decide)),
    (navigateAutoComplete_up (navigateAutoComplete singlePanel KEY_DOWN exampleGeometry)
      exampleGeometry (by decide)).2.1 (by decide)⟩

/-- Counterexample to C3 as stated: with the third of three items selected, a
new result set with a single item (`handleResponse`, which ends in `enable`)
leaves the selection index at 2: it is not reset to -1 and lies outside
`0..itemCount-1`. The state `narrowedPanel` is reached from the constructor by
events alone. -/
theorem selectedItem_not_reset_counterexample :
    selectedPanel.settings.selectedItem = 2
    ∧ (handleResponse exampleDom selectedPanel (htmlResponse 200 1)).completed = true
    ∧ (handleResponse exampleDom selectedPanel (htmlResponse 200 1)).state.itemCount = 1
    ∧ (handleResponse exampleDom selectedPanel (htmlResponse 200 1)).state.settings.selectedItem
        = 2
    ∧ narrowedPanel.itemCount = 1 ∧ narrowedPanel.settings.selectedItem = 2
    ∧ ¬ (narrowedPanel.settings.selectedItem = -1
        ∨ (0 ≤ narrowedPanel.settings.selectedItem
          ∧ narrowedPanel.settings.selectedItem < (narrowedPanel.itemCount : Int))) := by
  decide

/-- C3, amended: a new result set (`handleResponse` followed by `enable`)
leaves the selection index as it was, for every prior selection index; the
index is changed by no event other than a key handled by
`navigateAutoComplete`; consequently, in every state reached from a completer
constructed with the default index -1, the selection index is at least -1. -/
theorem selectedItem_kept_by_handleResponse (dom : String → List ResultItem) (s : Completer)
    (r : Response) (settings : Settings) (inputElement : InputElement) (events : List Event)
    (h0 : settings.selectedItem = -1) :
    (handleResponse dom s r).state.settings.selectedItem = s.settings.selectedItem
    ∧ (∀ e : Event, (∀ k g, e ≠ .keydown k g) →
        (step dom s e).settings.selectedItem = s.settings.selectedItem)
    ∧ -1 ≤ (run dom (construct settings inputElement) events).settings.selectedItem := by
  refine ⟨by rw [handleResponse_settings], fun e he => step_selectedItem dom s e he, ?_⟩
  apply run_selectedItem_ge
  show -1 ≤ settings.selectedItem
  omega

/-- Witness of the amended C3 on the example: the response with one item keeps
the selection index 2. -/
theorem selectedItem_kept_by_handleResponse_witness :
    exampleSettings.selectedItem = -1
    ∧ (handleResponse exampleDom selectedPanel (htmlResponse 200 1)).state.settings.selectedItem
        = selectedPanel.settings.selectedItem
    ∧ -1 ≤ (run exampleDom (construct exampleSettings (textInput "ab"))
        [.focus, .timeout 1, .complete 0 (htmlResponse 200 3),
         .keydown KEY_UP exampleGeometry]).settings.selectedItem :=
  ⟨by decide,
    (selectedItem_kept_by_handleResponse exampleDom selectedPanel (htmlResponse 200 1)
      exampleSettings (textInput "ab") [.focus, .timeout 1, .complete 0 (htmlResponse 200 3),
         .keydown KEY_UP exampleGeometry] (by decide)).1,
    (selectedItem_kept_by_handleResponse exampleDom selectedPanel (htmlResponse 200 1)
      exampleSettings (textInput "ab") [.focus, .timeout 1, .complete 0 (htmlResponse 200 3),
         .keydown KEY_UP exampleGeometry] (by decide)).2.2⟩

/-- C4: for every request URL `u`, parameter name `p` and field text `t`,
`getQueryString` returns `u ++ "&" ++ p ++ "=" ++ t` when `u` contains the
character `?` and `u ++ "?" ++ p ++ "=" ++ t` when it does not. -/
theorem getQueryString_spec (s : Completer) (u p t : String)
    (hu : s.settings.requestUrl = some u) (hp : s.settings.requestSearchParamName = p)
    (ht : s.inputElement.value = t) :
    getQueryString s =
      some (if '?' ∈ u.toList then u ++ "&" ++ p ++ "=" ++ t else u ++ "?" ++ p ++ "=" ++ t) := by
  unfold getQueryString
  rw [hu, hp, ht]
  by_cases h : '?' ∈ u.toList
  · have h2 : indexOfFrom '?' u.toList 0 ≠ -1 := (indexOfFrom_ne_iff_mem _ _ _).2 h
    simp only [h, h2, if_true, ne_eq, not_false_eq_true]
  · have h2 : ¬ indexOfFrom '?' u.toList 0 ≠ -1 :=
      fun e => h ((indexOfFrom_ne_iff_mem _ _ _).1 e)
    simp only [h, if_false]
    rw [if_neg h2]

/-- Witness of C4, the specification's two examples: `/search` with the text
`ab` gives `/search?q=ab`, and `/search?x=1` gives `/search?x=1&q=ab`. -/
theorem getQueryString_spec_witness :
    getQueryString exampleCompleter = some "/search?q=ab"
    ∧ getQueryString queryCompleter = some "/search?x=1&q=ab" :=
  ⟨(getQueryString_spec exampleCompleter "/search" "q" "ab" rfl rfl rfl).trans (by decide),
   (getQueryString_spec queryCompleter "/search?x=1" "q" "ab" rfl rfl rfl).trans (by decide)⟩

/-- C5: for every structured response with a list of records, normalisation
(`handleResponse` resetting the count, then `handleJsonResponse`) completes
and yields `itemCount` equal to the number of records, and leaves the records,
in source order, as the specification's defaulting rules say: `name` and
`value` default to the empty string when absent, `caption` and `title` to the
defaulted name, and a field that is present is kept. -/
theorem handleResponse_json_normalizes (dom : String → List ResultItem) (s : Completer)
    (response : Response) (header : String) (payload : JsonPayload) (list : List Record)
    (hh : response.contentType = some header) (hj : matchesJson header = true)
    (hp : response.responseJSON = some payload) (hl : payload.list = some list) :
    (handleResponse dom s response).completed = true
    ∧ (handleResponse dom s response).state.itemCount = list.length
    ∧ (handleJsonResponse { s with itemCount := 0, itemList := "" } response.responseJSON).2
        = list.map (fun r => (CandidateItem.ofRecord r).toRecord)
    ∧ (∀ r ∈ list, ∀ v : String,
        (r.name = some v → (CandidateItem.ofRecord r).name = v)
        ∧ (r.value = some v → (CandidateItem.ofRecord r).value = v)
        ∧ (r.caption = some v → (CandidateItem.ofRecord r).caption = v)
        ∧ (r.title = some v → (CandidateItem.ofRecord r).title = v)) := by
  unfold handleResponse handleJsonResponse
  simp only [hh, hj, hp, hl, if_true]
  refine ⟨rfl, ?_, ?_, ?_⟩
  · simp only [Outcome.state, enable_itemCount]
    rw [(jsonEach_spec _ _ _).1]
    simp
  · exact (jsonEach_spec _ _ _).2
  · intro r _ v
    refine ⟨?_, ?_, ?_, ?_⟩ <;> intro hv <;> simp [CandidateItem.ofRecord, hv]

/-- Witness of C5, the specification's example: the list `[{name:"A"},
{name:"B",value:"b2"}]` gives two items; item 0 has caption `A`, title `A` and
value the empty string; item 1 has caption `B` and value `b2`. -/
theorem handleResponse_json_normalizes_witness :
    (handleResponse exampleDom exampleCompleter jsonExample).completed = true
    ∧ (handleResponse exampleDom exampleCompleter jsonExample).state.itemCount = 2
    ∧ (handleJsonResponse { exampleCompleter with itemCount := 0, itemList := "" }
        jsonExample.responseJSON).2
        = [ { name := some "A", value := some "", caption := some "A", title := some "A" },
            { name := some "B", value := some "b2", caption := some "B", title := some "B" } ] :=
  have h := handleResponse_json_normalizes exampleDom exampleCompleter jsonExample
    "application/json"
    { success := some true
      error := none
      list := some
        [ { name := some "A", value := none, caption := none, title := none },
          { name := some "B", value := some "b2", caption := none, title := none } ] }
    [ { name := some "A", value := none, caption := none, title := none },
      { name := some "B", value := some "b2", caption := none, title := none } ]
    rfl (by decide) rfl rfl
  ⟨h.1, h.2.1, h.2.2.1⟩

/-- C6, the code at the failing input: for a markup without any `<li`,
`handleHtmlResponse` throws (it reads `length` of the `null` that `match`
returned), so `handleResponse` does not reach `enable`; a panel that was open
on three items stays in the document with its three items and no fade-out
scheduled, while `itemCount` is 0. -/
theorem handleHtmlResponse_no_marker_throws :
    (handleHtmlResponse exampleCompleter "").completed = false
    ∧ (handleHtmlResponse exampleCompleter "<ul></ul>").completed = false
    ∧ (handleResponse exampleDom openPanel (htmlResponse 200 0)).completed = false
    ∧ (run exampleDom openPanel [.edit "abz", .keyup 90, .timeout 2,
        .complete 1 (htmlResponse 200 0)]).itemCount = 0
    ∧ (run exampleDom openPanel [.edit "abz", .keyup 90, .timeout 2,
        .complete 1 (htmlResponse 200 0)]).containerInDocument = true
    ∧ (run exampleDom openPanel [.edit "abz", .keyup 90, .timeout 2,
        .complete 1 (htmlResponse 200 0)]).fades = 0
    ∧ (run exampleDom openPanel [.edit "abz", .keyup 90, .timeout 2,
        .complete 1 (htmlResponse 200 0)]).resultItems.length = 3 := by
  decide

/-- Counterexample to C7 as stated: with `allowFreeInput = true` and a value
element that is a text field, `setValue` of a string with a line break stores
the string without the line break, not exactly the string given. -/
theorem setValue_text_field_counterexample :
    textValueCompleter.settings.allowFreeInput = true
    ∧ (setValue textValueCompleter (.text "a\nb")).settings.valueElement.value = "ab"
    ∧ (setValue textValueCompleter (.text "a\nb")).settings.valueElement.value ≠ "a\nb" := by
  decide

/-- C7, amended: for every string `t`, `setValue(t)` with `allowFreeInput =
false` leaves the value element's value and the input field's text unchanged;
with `allowFreeInput = true` it assigns `t` to the value element's `value`,
which then holds what the element's type keeps of `t`: exactly `t` whenever
the element does not alter `t`, as a text field does not alter a string
without line breaks. -/
theorem setValue_free_text (s : Completer) (t : String) :
    (s.settings.allowFreeInput = false →
      (setValue s (.text t)).settings.valueElement.value = s.settings.valueElement.value
      ∧ (setValue s (.text t)).inputElement.value = s.inputElement.value)
    ∧ (s.settings.allowFreeInput = true →
      (setValue s (.text t)).settings.valueElement.value = s.settings.valueElement.sanitize t
      ∧ (s.settings.valueElement.sanitize t = t →
          (setValue s (.text t)).settings.valueElement.value = t)
      ∧ (s.settings.valueElement.sanitize = stripNewlines →
          (∀ c ∈ t.toList, c.toNat ≠ 10 ∧ c.toNat ≠ 13) →
          (setValue s (.text t)).settings.valueElement.value = t)) := by
  constructor
  · intro h
    simp [setValue, h]
  · intro h
    have hv : (setValue s (.text t)).settings.valueElement.value
        = s.settings.valueElement.sanitize t := by
      simp [setValue, h]
    refine ⟨hv, fun ht => hv.trans ht, fun hs hc => ?_⟩
    rw [hv, hs]
    exact stripNewlines_of_no_break t hc

/-- Witness of the amended C7: free text `zz` is dropped by a completer that
does not allow free input; a hidden value element stores a string with a line
break as it is, and a text field stores `zz` as it is. -/
theorem setValue_free_text_witness :
    noFreeInput.settings.allowFreeInput = false
    ∧ ((setValue noFreeInput (.text "zz")).settings.valueElement.value = "v0"
      ∧ (setValue noFreeInput (.text "zz")).inputElement.value = "ab")
    ∧ exampleCompleter.settings.allowFreeInput = true
    ∧ (setValue exampleCompleter (.text "a\nb")).settings.valueElement.value = "a\nb"
    ∧ textValueCompleter.settings.allowFreeInput = true
    ∧ (setValue textValueCompleter (.text "zz")).settings.valueElement.value = "zz" :=
  ⟨by decide, (setValue_free_text noFreeInput "zz").1 (by decide), by decide,
    ((setValue_free_text exampleCompleter "a\nb").2 (by decide)).2.1 (by decide), by decide,
    ((setValue_free_text textValueCompleter "zz").2 (by decide)).2.2 rfl (by decide)⟩

/-- C8, the code at the failing input: with `allowEmptyRequests = false` and an
empty field, a Backspace `keyup` and a `focus` each start the debounce timer,
and when the timer fires the request `/search?q=` is dispatched: no listener
reads the setting. -/
theorem allowEmptyRequests_ignored :
    noEmptyRequests.settings.allowEmptyRequests = false
    ∧ noEmptyRequests.inputElement.value = ""
    ∧ eventIsNavigationKeyStroke 8 = false
    ∧ (step exampleDom noEmptyRequests (.keyup 8)).timers = [1]
    ∧ (step exampleDom noEmptyRequests .focus).timers = [1]
    ∧ (run exampleDom noEmptyRequests [.keyup 8, .timeout 1]).dispatched = ["/search?q="]
    ∧ (run exampleDom noEmptyRequests [.keyup 8, .timeout 1]).requests = [0] := by
  decide

/-- C9: in every state reached from the constructor by any sequence of events
(among them calls of `sendRequest`, firings of debounce timers and calls of
`disable`), at most one debounce timer is pending and at most one request is
in flight; a `sendRequest` in such a state leaves no request in flight and
exactly the timer it started pending; and an event that creates a request is
the firing of the single pending timer. -/
theorem scheduler_at_most_one (dom : String → List ResultItem) (settings : Settings)
    (inputElement : InputElement) (events : List Event) :
    (run dom (construct settings inputElement) events).timers.length ≤ 1
    ∧ (run dom (construct settings inputElement) events).requests.length ≤ 1
    ∧ (sendRequest (run dom (construct settings inputElement) events)).requests = []
    ∧ (sendRequest (run dom (construct settings inputElement) events)).timers
        = [(run dom (construct settings inputElement) events).nextTimer]
    ∧ ∀ e : Event,
        (step dom (run dom (construct settings inputElement) events) e).nextRequest
          ≠ (run dom (construct settings inputElement) events).nextRequest →
        ∃ id, e = .timeout id
          ∧ (run dom (construct settings inputElement) events).timers = [id] := by
  have h := run_inv dom _ events (construct_inv settings inputElement)
  refine ⟨h.length_le.1, h.length_le.2, (sendRequest_spec _ h).2.1, (sendRequest_spec _ h).1, ?_⟩
  intro e hne
  by_contra hc
  push_neg at hc
  apply hne
  refine (step_quiet dom _ e h ?_).2
  intro id hid hm
  exact hc id hid (mem_timers_eq h hm)

/-- Witness of C9: after a burst of three key strokes one timer is pending and
nothing is in flight, and the firing of that timer is what creates the
request. -/
theorem scheduler_at_most_one_witness :
    (run exampleDom (construct exampleSettings (textInput "ab"))
      [.keyup 65, .keyup 66, .keyup 67]).timers.length ≤ 1
    ∧ (step exampleDom (run exampleDom (construct exampleSettings (textInput "ab"))
        [.keyup 65, .keyup 66, .keyup 67]) (.timeout 3)).nextRequest
        ≠ (run exampleDom (construct exampleSettings (textInput "ab"))
          [.keyup 65, .keyup 66, .keyup 67]).nextRequest
    ∧ ∃ id, Event.timeout 3 = Event.timeout id
        ∧ (run exampleDom (construct exampleSettings (textInput "ab"))
          [.keyup 65, .keyup 66, .keyup 67]).timers = [id] :=
  ⟨(scheduler_at_most_one exampleDom exampleSettings (textInput "ab") [.keyup 65, .keyup 66, .keyup 67]).1,
    by decide,
    (scheduler_at_most_one exampleDom exampleSettings (textInput "ab")
      [.keyup 65, .keyup 66, .keyup 67]).2.2.2.2 (.timeout 3) (by decide)⟩

/-- C10, the code at the failing input: with `reportErrors = true`, a request
that completes with status 500 raises no alert. The alert for a status above
299 is written inside `onSuccess`, which would raise it if it were called, but
Prototype calls `onSuccess` only for a status `isSuccessStatus` accepts and no
`onFailure` is registered: the request leaves the requests in flight and
nothing is surfaced. -/
theorem error_status_not_reported :
    reportingCompleter.settings.reportErrors = true
    ∧ errorResponse.status ≥ 300
    ∧ isSuccessStatus errorResponse.status = false
    ∧ (run exampleDom reportingCompleter [.focus, .timeout 1]).requests = [0]
    ∧ (run exampleDom reportingCompleter
        [.focus, .timeout 1, .complete 0 errorResponse]).requests = []
    ∧ (run exampleDom reportingCompleter
        [.focus, .timeout 1, .complete 0 errorResponse]).alerts = []
    ∧ (onSuccess exampleDom (run exampleDom reportingCompleter [.focus, .timeout 1])
        errorResponse).state.alerts = ["Ett fel har inträffat: Internal Server Error"] := by
  decide

end ExpenseCompleter
